import Mathlib

/-!
# Tenderdash `init` commands and the BLS12-381 key type

Part I embeds `cmd/tenderdash/commands/init.go`: the functions `initializeNodeKey`,
`initFilesWithConfig` and `initFilesSingleNodeWithConfig`, as state-passing functions over an
abstract world `W` (file system, random generator, clock).  The packages the commands call
(`tmos`, `p2p`, `privval`, `types`, `tmrand`, `tmtime`, `btcjson`, `crypto`) are collaborators:
they are fields of `Collaborators`, typed after the Go signatures visible at the call sites.
Every call that touches the world is recorded in a trace, so that "was not called" and
"was called with this document" are statements about a list.

Part II models the key type of `crypto/bls12381`, whose implementation is exercised by
`bls12381_test.go`.
-/

namespace Tenderdash

/-- A Go `[]byte`. -/
abbrev Bytes := List (Fin 256)

/-! ## Part I: `commands/init.go` -/

namespace Commands

/-- Go `error` values as the commands build them.  `ε` is the type of the errors that the
collaborators return. -/
inductive GoError (ε : Type) where
  /-- `return err`: the collaborator's error, handed on unchanged. -/
  | ext (err : ε)
  /-- `fmt.Errorf(msg)` with no wrapped error. -/
  | errorf (msg : String)
  /-- `fmt.Errorf(msg + ": %w", err)`. -/
  | wrapf (msg : String) (err : ε)
deriving DecidableEq, Repr

/-- The four path accessors of `cfg.Config` that the commands call. -/
structure Config where
  NodeKeyFile : String
  GenesisFile : String
  PrivValidatorKeyFile : String
  PrivValidatorStateFile : String
deriving DecidableEq, Repr

/-- The package-level variables bound to command-line flags by `AddInitFlags`. -/
structure Flags where
  /-- `--quorumType`, a Go `int`. -/
  quorumType : Int
  /-- `--coreChainLockedHeight`, a Go `uint32`. -/
  coreChainLockedHeight : Nat
  /-- `--proTxHash`, a Go `[]byte`; `nil` is the empty list. -/
  proTxHash : Bytes
deriving DecidableEq, Repr

/-- The fields of `types.GenesisValidator` that `init.go` sets. -/
structure GenesisValidator (PK : Type) where
  PubKey : PK
  ProTxHash : Bytes
  Power : Int
deriving DecidableEq, Repr

/-- The fields of `types.GenesisDoc` that `init.go` sets.  `none` (and `[]` for `Validators`)
stands for a field that the struct literal leaves at its zero value. -/
structure GenesisDoc (PK QH CP T QT : Type) where
  ChainID : String
  GenesisTime : T
  ConsensusParams : CP
  QuorumType : QT
  InitialCoreChainLockedHeight : Nat
  NodeProTxHash : Option Bytes
  ThresholdPublicKey : Option PK
  QuorumHash : Option QH
  Validators : List (GenesisValidator PK)
deriving DecidableEq, Repr

/-- A value passed to `logger.Info` after the message: a path or a byte string. -/
inductive LogValue where
  | str (s : String)
  | bytes (b : Bytes)
deriving DecidableEq, Repr

/-- One recorded call of a collaborator. -/
inductive Event (PK QH CP T QT : Type) where
  | fileExists (path : String)
  | logInfo (msg : String) (keyvals : List (String × LogValue))
  | loadOrGenNodeKey (path : String)
  | loadFilePV (keyFile stateFile : String)
  | genFilePV (keyFile stateFile : String)
  | pvSave
  | randStr (n : Nat)
  | now
  | saveAs (doc : GenesisDoc PK QH CP T QT) (path : String)
deriving DecidableEq, Repr

/-- The packages `init.go` calls, over a world `W`.  `FileExists`, `LoadFilePV` and `Now` are
taken to read the world only and return no new world; the getters of the private validator are
functions of the private validator; the other calls return a new world.  A function that
returns a Go `error` returns `Option ε`, `none` for `nil`.  Process exit or panic inside a
collaborator is outside the model. -/
structure Collaborators (W ε PK QH PV CP T QT : Type) where
  /-- `crypto.ProTxHashSize`. -/
  ProTxHashSize : Nat
  /-- `types.DefaultDashVotingPower`. -/
  DefaultDashVotingPower : Int
  /-- `tmos.FileExists`. -/
  fileExists : String → W → Bool
  /-- `p2p.LoadOrGenNodeKey`; the node key it returns is discarded by the caller. -/
  loadOrGenNodeKey : String → W → W × Option ε
  /-- `privval.LoadFilePV`. -/
  loadFilePV : String → String → W → PV
  /-- `privval.GenFilePV`. -/
  genFilePV : String → String → W → W × PV
  /-- `(*privval.FilePV).Save`. -/
  pvSave : PV → W → W
  /-- `(*privval.FilePV).GetFirstQuorumHash`. -/
  getFirstQuorumHash : PV → Except ε QH
  /-- `(*privval.FilePV).GetPubKey`. -/
  getPubKey : PV → QH → Except ε PK
  /-- `(*privval.FilePV).GetProTxHash`. -/
  getProTxHash : PV → Except ε Bytes
  /-- `tmrand.Str`. -/
  randStr : Nat → W → W × String
  /-- `tmtime.Now`. -/
  now : W → T
  /-- `types.DefaultConsensusParams()`. -/
  defaultConsensusParams : CP
  /-- The conversion `btcjson.LLMQType(n)` of a Go `int`. -/
  llmqType : Int → QT
  /-- `(*types.GenesisDoc).SaveAs`. -/
  saveAs : GenesisDoc PK QH CP T QT → String → W → W × Option ε

/-- What a command leaves behind: the world, the calls it made, and the `error` it returned
(`none` is `nil`). -/
structure Outcome (W ε PK QH CP T QT : Type) where
  world : W
  trace : List (Event PK QH CP T QT)
  err : Option (GoError ε)

section Model

variable {W ε PK QH PV CP T QT : Type}

/-- The text of the size error of `initFilesWithConfig`, for a hash of `n` bytes. -/
def proTxHashSizeMessage (n : Nat) : String :=
  "nodeProTxHash is incorrect size wanted 32 bytes, got " ++ toString n ++ " bytes"

/-- `initializeNodeKey` of `init.go`. -/
def initializeNodeKey (sys : Collaborators W ε PK QH PV CP T QT) (config : Config) (w : W) :
    Outcome W ε PK QH CP T QT :=
  let nodeKeyFile := config.NodeKeyFile
  if sys.fileExists nodeKeyFile w then
    { world := w
      trace := [.fileExists nodeKeyFile,
                .logInfo "Found node key" [("path", .str nodeKeyFile)]]
      err := none }
  else
    match sys.loadOrGenNodeKey nodeKeyFile w with
    | (w1, some err) =>
        { world := w1
          trace := [.fileExists nodeKeyFile, .loadOrGenNodeKey nodeKeyFile]
          err := some (.ext err) }
    | (w1, none) =>
        { world := w1
          trace := [.fileExists nodeKeyFile, .loadOrGenNodeKey nodeKeyFile,
                    .logInfo "Generated node key" [("path", .str nodeKeyFile)]]
          err := none }

/-- The tail shared by both commands (`init.go` lines 91-94 and 157-160):
`if err := genDoc.SaveAs(genFile); err != nil { return err }`, then the log line and
`return nil`.  `pre` is the trace so far. -/
def saveGenesisDoc (sys : Collaborators W ε PK QH PV CP T QT)
    (pre : List (Event PK QH CP T QT)) (genDoc : GenesisDoc PK QH CP T QT) (genFile : String)
    (w : W) : Outcome W ε PK QH CP T QT :=
  match sys.saveAs genDoc genFile w with
  | (w2, some err) =>
      { world := w2, trace := pre ++ [.saveAs genDoc genFile], err := some (.ext err) }
  | (w2, none) =>
      { world := w2
        trace := pre ++ [.saveAs genDoc genFile,
                         .logInfo "Generated genesis file" [("path", .str genFile)]]
        err := none }

/-- `initFilesWithConfig` of `init.go`. -/
def initFilesWithConfig (sys : Collaborators W ε PK QH PV CP T QT) (flags : Flags)
    (config : Config) (w : W) : Outcome W ε PK QH CP T QT :=
  -- node key
  let nk := initializeNodeKey sys config w
  match nk.err with
  | some err => { world := nk.world, trace := nk.trace, err := some err }
  | none =>
    -- genesis file
    let genFile := config.GenesisFile
    if sys.fileExists genFile nk.world then
      { world := nk.world
        trace := nk.trace ++ [.fileExists genFile,
                              .logInfo "Found genesis file" [("path", .str genFile)]]
        err := none }
    else
      let nodeProTxHash := flags.proTxHash
      let rs := sys.randStr 6 nk.world
      let genDoc : GenesisDoc PK QH CP T QT :=
        { ChainID := "test-chain-" ++ rs.2
          GenesisTime := sys.now rs.1
          ConsensusParams := sys.defaultConsensusParams
          QuorumType := sys.llmqType flags.quorumType
          InitialCoreChainLockedHeight := flags.coreChainLockedHeight
          NodeProTxHash := none
          ThresholdPublicKey := none
          QuorumHash := none
          Validators := [] }
      let pre := nk.trace ++ [.fileExists genFile, .randStr 6, .now]
      if nodeProTxHash.length ≠ 0 then
        if nodeProTxHash.length ≠ sys.ProTxHashSize then
          { world := rs.1
            trace := pre
            err := some (.errorf (proTxHashSizeMessage nodeProTxHash.length)) }
        else
          saveGenesisDoc sys pre { genDoc with NodeProTxHash := some nodeProTxHash } genFile rs.1
      else
        saveGenesisDoc sys pre genDoc genFile rs.1

/-- The first block of `initFilesSingleNodeWithConfig` (`init.go` lines 101-114): load the
private validator when its key file exists, generate and save it otherwise.  Returns the world,
the private validator `pv` and the calls made. -/
def privValidatorStep (sys : Collaborators W ε PK QH PV CP T QT) (config : Config) (w : W) :
    W × PV × List (Event PK QH CP T QT) :=
  let privValKeyFile := config.PrivValidatorKeyFile
  let privValStateFile := config.PrivValidatorStateFile
  if sys.fileExists privValKeyFile w then
    (w, sys.loadFilePV privValKeyFile privValStateFile w,
      [.fileExists privValKeyFile, .loadFilePV privValKeyFile privValStateFile,
       .logInfo "Found private validator"
         [("keyFile", .str privValKeyFile), ("stateFile", .str privValStateFile)]])
  else
    let g := sys.genFilePV privValKeyFile privValStateFile w
    (sys.pvSave g.2 g.1, g.2,
      [.fileExists privValKeyFile, .genFilePV privValKeyFile privValStateFile, .pvSave,
       .logInfo "Generated private validator"
         [("keyFile", .str privValKeyFile), ("stateFile", .str privValStateFile)]])

/-- `initFilesSingleNodeWithConfig` of `init.go`.  The package-level flags are in scope of the
Go function, which reads none of them: its local `proTxHash` shadows the flag. -/
def initFilesSingleNodeWithConfig (sys : Collaborators W ε PK QH PV CP T QT) (_flags : Flags)
    (config : Config) (w : W) : Outcome W ε PK QH CP T QT :=
  -- private validator
  let pvStep := privValidatorStep sys config w
  let pv := pvStep.2.1
  -- node key
  let nk := initializeNodeKey sys config pvStep.1
  let tr1 := pvStep.2.2 ++ nk.trace
  match nk.err with
  | some err => { world := nk.world, trace := tr1, err := some err }
  | none =>
    -- genesis file
    let genFile := config.GenesisFile
    if sys.fileExists genFile nk.world then
      { world := nk.world
        trace := tr1 ++ [.fileExists genFile,
                         .logInfo "Found genesis file" [("path", .str genFile)]]
        err := none }
    else
      let tr2 := tr1 ++ [.fileExists genFile]
      match sys.getFirstQuorumHash pv with
      | .error err =>
          { world := nk.world, trace := tr2, err := some (.wrapf "there is no quorum hash" err) }
      | .ok quorumHash =>
      match sys.getPubKey pv quorumHash with
      | .error err =>
          { world := nk.world, trace := tr2
            err := some (.wrapf "can't get pubkey in init files with config" err) }
      | .ok pubKey =>
      match sys.getProTxHash pv with
      | .error err =>
          { world := nk.world, trace := tr2, err := some (.wrapf "can't get proTxHash" err) }
      | .ok proTxHash =>
        let rs := sys.randStr 6 nk.world
        let genDoc : GenesisDoc PK QH CP T QT :=
          { ChainID := "test-chain-" ++ rs.2
            GenesisTime := sys.now rs.1
            ConsensusParams := sys.defaultConsensusParams
            QuorumType := sys.llmqType 0
            InitialCoreChainLockedHeight := 0
            NodeProTxHash := some proTxHash
            ThresholdPublicKey := some pubKey
            QuorumHash := some quorumHash
            Validators := [{ PubKey := pubKey
                             ProTxHash := proTxHash
                             Power := sys.DefaultDashVotingPower }] }
        let tr3 := tr2 ++ [.logInfo "Found proTxHash" [("proTxHash", .bytes proTxHash)],
                           .randStr 6, .now]
        saveGenesisDoc sys tr3 genDoc genFile rs.1

/-- The calls that may change the world: the collaborators whose model returns a new world. -/
def Event.changesWorld : Event PK QH CP T QT → Bool
  | .loadOrGenNodeKey _ => true
  | .genFilePV _ _ => true
  | .pvSave => true
  | .randStr _ => true
  | .saveAs _ _ => true
  | _ => false

/-- What the commands rely on the writing collaborators to do to the file system: a write that
reports success leaves its file in existence, and no call makes an existing file disappear.
These are properties of `p2p`, `privval`, `types` and `tmrand`, not of `init.go`. -/
structure Collaborators.KeepsFiles (sys : Collaborators W ε PK QH PV CP T QT) : Prop where
  nodeKey_creates : ∀ p w, (sys.loadOrGenNodeKey p w).2 = none →
    sys.fileExists p (sys.loadOrGenNodeKey p w).1 = true
  nodeKey_keeps : ∀ p q w, sys.fileExists q w = true →
    sys.fileExists q (sys.loadOrGenNodeKey p w).1 = true
  saveAs_creates : ∀ d p w, (sys.saveAs d p w).2 = none →
    sys.fileExists p (sys.saveAs d p w).1 = true
  saveAs_keeps : ∀ d p q w, sys.fileExists q w = true →
    sys.fileExists q (sys.saveAs d p w).1 = true
  pvSave_creates : ∀ k s w,
    sys.fileExists k (sys.pvSave (sys.genFilePV k s w).2 (sys.genFilePV k s w).1) = true
  randStr_keeps : ∀ n q w, sys.fileExists q w = true →
    sys.fileExists q (sys.randStr n w).1 = true

end Model

/-! ### A small concrete system, used to run the commands -/

/-- A world for running the commands: the paths of the files that exist, and a counter that
stands for the random generator and the clock. -/
structure SimWorld where
  files : List String
  tick : Nat
deriving DecidableEq, Repr

/-- A private validator of the concrete system: the number it was generated from and the path
of its key file. -/
structure SimPV where
  id : Nat
  keyFile : String
deriving DecidableEq, Repr

/-- Collaborators over `SimWorld`.  Writing to the empty path fails; a private validator with
`id = 0` has no quorum hash, one with `id = 1` no public key, one with `id = 2` no proTxHash. -/
def simSys : Collaborators SimWorld String Nat Nat SimPV Unit Nat Int where
  ProTxHashSize := 32
  DefaultDashVotingPower := 100
  fileExists p w := w.files.contains p
  loadOrGenNodeKey p w :=
    if p = "" then (w, some "open : no such file or directory")
    else ({ w with files := p :: w.files, tick := w.tick + 1 }, none)
  loadFilePV k _ w := { id := w.tick, keyFile := k }
  genFilePV k _ w := ({ w with tick := w.tick + 1 }, { id := w.tick, keyFile := k })
  pvSave pv w := { w with files := pv.keyFile :: w.files }
  getFirstQuorumHash pv := if pv.id = 0 then .error "no quorum hash" else .ok (pv.id + 1)
  getPubKey pv qh := if pv.id = 1 then .error "no public key" else .ok (pv.id + qh)
  getProTxHash pv :=
    if pv.id = 2 then .error "no proTxHash" else .ok (List.replicate 32 (Fin.ofNat pv.id))
  randStr n w := ({ w with tick := w.tick + 1 }, String.mk (List.replicate n 'a'))
  now w := w.tick
  defaultConsensusParams := ()
  llmqType n := n
  saveAs _ p w :=
    if p = "" then (w, some "open : no such file or directory")
    else ({ w with files := p :: w.files }, none)

/-- Paths of the concrete runs. -/
def simConfig : Config where
  NodeKeyFile := "config/node_key.json"
  GenesisFile := "config/genesis.json"
  PrivValidatorKeyFile := "config/priv_validator_key.json"
  PrivValidatorStateFile := "data/priv_validator_state.json"

/-- An empty directory. -/
def simEmpty : SimWorld := { files := [], tick := 3 }

/-- A directory in which every file that the commands check exists. -/
def simFull : SimWorld :=
  { files := ["config/genesis.json", "config/node_key.json", "config/priv_validator_key.json"]
    tick := 9 }

/-- A directory that holds a private validator key file only, at tick `t`. -/
def simWithKey (t : Nat) : SimWorld := { files := ["config/priv_validator_key.json"], tick := t }

/-- The genesis document that `init-single` writes when run in `simEmpty`. -/
def simGenesisDoc : GenesisDoc Nat Nat Unit Nat Int where
  ChainID := "test-chain-aaaaaa"
  GenesisTime := 6
  ConsensusParams := ()
  QuorumType := 0
  InitialCoreChainLockedHeight := 0
  NodeProTxHash := some (List.replicate 32 3)
  ThresholdPublicKey := some 7
  QuorumHash := some 4
  Validators := [{ PubKey := 7, ProTxHash := List.replicate 32 3, Power := 100 }]

end Commands

/-! ## Part II: the key type of `crypto/bls12381`

`bls12381_test.go` exercises `GenPrivKey`, `PrivKey.PubKey`, `PrivKey.Sign`,
`PubKey.VerifySignature` and `PubKey.Address`.  The file that implements them,
`crypto/bls12381/bls12381.go`, and the curve library under it are not among the sources, so
the definitions below are modelled from the specification of these operations.  The byte-level
helpers `hexDecode` and `base64Decode` are the Go standard library functions that the test
calls on its literals. -/

namespace BLS12381

/-- Modelled from the spec: size of a serialized private key, a big-endian scalar
(section 6). -/
def PrivateKeySize : Nat := 32

/-- Modelled from the spec: size of a serialized public key, a compressed G1 point
(section 6). -/
def PubKeySize : Nat := 48

/-- Modelled from the spec: size of a serialized signature, a compressed G2 point
(section 6). -/
def SignatureSize : Nat := 96

/-- Modelled from the spec: size of an address (section 6). -/
def AddressSize : Nat := 20

/-- The byte with value `n mod 256`. -/
def byte (n : Nat) : Fin 256 := ⟨n % 256, Nat.mod_lt _ (by decide)⟩

/-- The number that a byte string denotes, most significant byte first. -/
def fromBytesBE (bs : Bytes) : Nat := bs.foldl (fun acc b => acc * 256 + b.val) 0

/-- The `len` low-order bytes of `n`, most significant byte first. -/
def toBytesBE : Nat → Nat → Bytes
  | 0, _ => []
  | len + 1, n => toBytesBE len (n / 256) ++ [byte n]

/-- Value of a hexadecimal digit. -/
def hexDigit (c : Char) : Option Nat :=
  if '0' ≤ c ∧ c ≤ '9' then some (c.toNat - '0'.toNat)
  else if 'a' ≤ c ∧ c ≤ 'f' then some (c.toNat - 'a'.toNat + 10)
  else if 'A' ≤ c ∧ c ≤ 'F' then some (c.toNat - 'A'.toNat + 10)
  else none

/-- Go's `hex.DecodeString` on a list of characters. -/
def hexDecodeChars : List Char → Option Bytes
  | [] => some []
  | hi :: lo :: rest =>
      match hexDigit hi, hexDigit lo, hexDecodeChars rest with
      | some h, some l, some bs => some (byte (16 * h + l) :: bs)
      | _, _, _ => none
  | _ => none

/-- Go's `hex.DecodeString`; `none` is a decoding error. -/
def hexDecode (s : String) : Option Bytes := hexDecodeChars s.toList

/-- Value of a digit of the standard base64 alphabet. -/
def base64Digit (c : Char) : Option Nat :=
  if 'A' ≤ c ∧ c ≤ 'Z' then some (c.toNat - 'A'.toNat)
  else if 'a' ≤ c ∧ c ≤ 'z' then some (c.toNat - 'a'.toNat + 26)
  else if '0' ≤ c ∧ c ≤ '9' then some (c.toNat - '0'.toNat + 52)
  else if c = '+' then some 62
  else if c = '/' then some 63
  else none

/-- The body of Go's `base64.StdEncoding.DecodeString`, on the characters that remain once
carriage returns and line feeds are removed: groups of four digits, the last group padded with
`=`. -/
def base64DecodeChars : List Char → Option Bytes
  | [] => some []
  | [c0, c1, '=', '='] =>
      match base64Digit c0, base64Digit c1 with
      | some d0, some d1 => some [byte ((d0 * 64 + d1) / 16)]
      | _, _ => none
  | [c0, c1, c2, '='] =>
      match base64Digit c0, base64Digit c1, base64Digit c2 with
      | some d0, some d1, some d2 =>
          let n := (d0 * 64 + d1) * 64 + d2
          some [byte (n / 1024), byte (n / 4)]
      | _, _, _ => none
  | c0 :: c1 :: c2 :: c3 :: rest =>
      match base64Digit c0, base64Digit c1, base64Digit c2, base64Digit c3,
          base64DecodeChars rest with
      | some d0, some d1, some d2, some d3, some bs =>
          let n := ((d0 * 64 + d1) * 64 + d2) * 64 + d3
          some (byte (n / 65536) :: byte (n / 256) :: byte n :: bs)
      | _, _, _, _, _ => none
  | _ => none

/-- Go's `base64.StdEncoding.DecodeString`; `none` is a decoding error.  As in Go, carriage
returns and line feeds in the input are skipped. -/
def base64Decode (s : String) : Option Bytes :=
  base64DecodeChars (s.toList.filter (fun c => c ≠ '\r' ∧ c ≠ '\n'))

/-! ### Curve groups and their compressed encoding -/

/-- Modelled from the spec: the curve-group component (section 4.2), whose implementation is
not among the sources.  A group has a known generator, scalar multiplication, the x-coordinate
of a point read as a number, the sign of its y-coordinate, the solution of the curve equation
for a given x-coordinate and sign (`none` when no point of the curve has that x-coordinate),
and the prime-order-subgroup membership test. -/
structure CurveGroup where
  Point : Type
  generator : Point
  smul : Nat → Point → Point
  xCoord : Point → Nat
  signBit : Point → Bool
  liftX : Nat → Bool → Option Point
  inSubgroup : Point → Bool

/-- Modelled from the spec: compressed serialization, "sign bit + x-coordinate" (section 3),
in `len` bytes: the sign bit is the top bit, the x-coordinate fills the bits below it. -/
def compress (G : CurveGroup) (len : Nat) (P : G.Point) : Bytes :=
  toBytesBE len ((if G.signBit P then 2 ^ (8 * len - 1) else 0) + G.xCoord P)

deriving instance DecidableEq for Except

/-- Modelled from the spec: the three ways in which point deserialization fails (sections 4.2
and 7). -/
inductive DecodeError where
  | badLength
  | notOnCurve
  | notInSubgroup
deriving DecidableEq, Repr

/-- Modelled from the spec: the sign bit of a `len`-byte compressed point, its top bit. -/
def signOfBytes (len : Nat) (bs : Bytes) : Bool := decide (2 ^ (8 * len - 1) ≤ fromBytesBE bs)

/-- Modelled from the spec: the x-coordinate of a `len`-byte compressed point, the bits below
the top bit. -/
def xOfBytes (len : Nat) (bs : Bytes) : Nat := fromBytesBE bs % 2 ^ (8 * len - 1)

/-- Modelled from the spec: point deserialization (sections 4.2 and 7), which "validates:
correct byte length, the decoded x-coordinate yields a point on the curve equation, and the
point lies in the prime-order subgroup"; "any failure yields a decode error". -/
def decompress (G : CurveGroup) (len : Nat) (bs : Bytes) : Except DecodeError G.Point :=
  if bs.length ≠ len then .error .badLength
  else
    match G.liftX (xOfBytes len bs) (signOfBytes len bs) with
    | none => .error .notOnCurve
    | some P => if G.inSubgroup P then .ok P else .error .notInSubgroup

/-! ### The group G1 of BLS12-381 -/

namespace G1

/-- Modelled from the spec: the base-field prime of BLS12-381, "p of about 381 bits"
(section 4.1). -/
def p : Nat :=
  0x1a0111ea397fe69a4b1ba7b6434bacd764774b84f38512bf6730d2a0f6b0f6241eabfffeb153ffffb9feffffffffaaab

/-- Modelled from the spec: the prime subgroup order `r` of BLS12-381 (section 3). -/
def r : Nat := 0x73eda753299d7d483339d80809a1d80553bda402fffe5bfeffffffff00000001

/-- Modelled from the spec: the x-coordinate of the known generator of G1 (section 4.2). -/
def gx : Nat :=
  0x17f1d3a73197d7942695638c4fa9ac0fc3688c4f9774b905a14e3a3f171bac586c55e83ff97a1aeffb3af00adb22c6bb

/-- Modelled from the spec: the y-coordinate of the known generator of G1 (section 4.2). -/
def gy : Nat :=
  0x08b3f481e3aaa0f1a09e30ed741d8ae4fcf5e095d5d00af600db18cb2c04b3edd03cc744a2888ae40caa232946c5e7e1

/-- Modelled from the spec: square-and-multiply in the base field (section 4.1); `fuel` bounds
the bit length of the exponent. -/
def powAux : Nat → Nat → Nat → Nat → Nat
  | 0, _, _, acc => acc
  | fuel + 1, b, e, acc =>
      if e = 0 then acc
      else powAux fuel (b * b % p) (e / 2) (if e % 2 = 1 then acc * b % p else acc)

/-- Modelled from the spec: exponentiation in the base field (section 4.1), for exponents below
`2 ^ 384`. -/
def fpow (b e : Nat) : Nat := powAux 384 (b % p) e 1

/-- Modelled from the spec: inversion by "Fermat's-little-theorem exponentiation"
(section 4.1). -/
def finv (a : Nat) : Nat := fpow a (p - 2)

/-- Modelled from the spec: square root for a prime that is 3 mod 4 (section 4.1): the
candidate `a ^ ((p + 1) / 4)`, kept when its square is `a`. -/
def fsqrt (a : Nat) : Option Nat :=
  let y := fpow a ((p + 1) / 4)
  if y * y % p = a % p then some y else none

/-- Modelled from the spec: a point of G1 (section 4.2), as an affine point of
`y ^ 2 = x ^ 3 + 4` with coordinates below `p`; `none` is the identity. -/
abbrev Point := Option (Nat × Nat)

/-- Modelled from the spec: addition and doubling on the curve (section 4.2), in affine
coordinates. -/
def add (P Q : Point) : Point :=
  match P, Q with
  | none, _ => Q
  | _, none => P
  | some (x1, y1), some (x2, y2) =>
    if x1 = x2 then
      if (y1 + y2) % p = 0 then none
      else
        let l := 3 * x1 * x1 % p * finv (2 * y1) % p
        let x3 := (l * l + 2 * p - x1 - x2) % p
        some (x3, (l * (x1 + p - x3) + p - y1) % p)
    else
      let l := (y2 + p - y1) * finv (x2 + p - x1) % p
      let x3 := (l * l + 2 * p - x1 - x2) % p
      some (x3, (l * (x1 + p - x3) + p - y1) % p)

/-- Modelled from the spec: double-and-add (section 4.2); `fuel` bounds the bit length of the
scalar. -/
def smulAux : Nat → Nat → Point → Point → Point
  | 0, _, _, acc => acc
  | fuel + 1, k, P, acc =>
      if k = 0 then acc
      else smulAux fuel (k / 2) (add P P) (if k % 2 = 1 then add acc P else acc)

/-- Modelled from the spec: scalar multiplication (section 4.2), for scalars below `2 ^ 256`. -/
def smul (k : Nat) (P : Point) : Point := smulAux 256 k P none

/-- Modelled from the spec: the sign of a y-coordinate (section 3), taken as whether it is the
larger of `y` and `p - y`. -/
def signOf (y : Nat) : Bool := decide ((p - 1) / 2 < y)

/-- Modelled from the spec: the point of the curve with a given x-coordinate and sign, if the
x-coordinate is a field element and satisfies the curve equation `y ^ 2 = x ^ 3 + 4`. -/
def liftX (x : Nat) (sign : Bool) : Option Point :=
  if p ≤ x then none
  else
    match fsqrt ((x * x % p * x + 4) % p) with
    | none => none
    | some y =>
        if signOf y = sign then some (some (x, y))
        else if signOf ((p - y) % p) = sign then some (some (x, (p - y) % p))
        else none

/-- Modelled from the spec: the group G1 of BLS12-381 (section 4.2), with the standard
parameters of the curve.  The subgroup test multiplies by the group order `r`.  The spec does
not say how the identity is encoded; here it has x-coordinate zero and sign bit zero. -/
@[reducible] def group : CurveGroup where
  Point := Point
  generator := some (gx, gy)
  smul := smul
  xCoord := fun P => match P with
    | none => 0
    | some (x, _) => x
  signBit := fun P => match P with
    | none => false
    | some (_, y) => signOf y
  liftX := liftX
  inSubgroup := fun P => (smul r P).isNone

end G1

/-! ### SHA-256 -/

namespace SHA256

/-- Modelled from the spec: the "cryptographic hash" of section 4.6 is taken to be SHA-256
(FIPS 180-4); these are its round constants. -/
def K : List Nat :=
  [0x428a2f98, 0x71374491, 0xb5c0fbcf, 0xe9b5dba5, 0x3956c25b, 0x59f111f1, 0x923f82a4, 0xab1c5ed5,
   0xd807aa98, 0x12835b01, 0x243185be, 0x550c7dc3, 0x72be5d74, 0x80deb1fe, 0x9bdc06a7, 0xc19bf174,
   0xe49b69c1, 0xefbe4786, 0x0fc19dc6, 0x240ca1cc, 0x2de92c6f, 0x4a7484aa, 0x5cb0a9dc, 0x76f988da,
   0x983e5152, 0xa831c66d, 0xb00327c8, 0xbf597fc7, 0xc6e00bf3, 0xd5a79147, 0x06ca6351, 0x14292967,
   0x27b70a85, 0x2e1b2138, 0x4d2c6dfc, 0x53380d13, 0x650a7354, 0x766a0abb, 0x81c2c92e, 0x92722c85,
   0xa2bfe8a1, 0xa81a664b, 0xc24b8b70, 0xc76c51a3, 0xd192e819, 0xd6990624, 0xf40e3585, 0x106aa070,
   0x19a4c116, 0x1e376c08, 0x2748774c, 0x34b0bcb5, 0x391c0cb3, 0x4ed8aa4a, 0x5b9cca4f, 0x682e6ff3,
   0x748f82ee, 0x78a5636f, 0x84c87814, 0x8cc70208, 0x90befffa, 0xa4506ceb, 0xbef9a3f7, 0xc67178f2]

/-- The eight working words of SHA-256. -/
structure State where
  a : Nat
  b : Nat
  c : Nat
  d : Nat
  e : Nat
  f : Nat
  g : Nat
  h : Nat
deriving DecidableEq, Repr

/-- Initial hash value of SHA-256. -/
def init : State :=
  ⟨0x6a09e667, 0xbb67ae85, 0x3c6ef372, 0xa54ff53a, 0x510e527f, 0x9b05688c, 0x1f83d9ab, 0x5be0cd19⟩

/-- Reduction to a 32-bit word. -/
def w32 (x : Nat) : Nat := x % 2 ^ 32

/-- Rotation of a 32-bit word to the right. -/
def rotr (x n : Nat) : Nat := w32 ((x >>> n) ||| (x <<< (32 - n)))

/-- The function sigma-0 of the message schedule. -/
def ssig0 (x : Nat) : Nat := rotr x 7 ^^^ rotr x 18 ^^^ (x >>> 3)

/-- The function sigma-1 of the message schedule. -/
def ssig1 (x : Nat) : Nat := rotr x 17 ^^^ rotr x 19 ^^^ (x >>> 10)

/-- The function Sigma-0 of the round. -/
def bsig0 (x : Nat) : Nat := rotr x 2 ^^^ rotr x 13 ^^^ rotr x 22

/-- The function Sigma-1 of the round. -/
def bsig1 (x : Nat) : Nat := rotr x 6 ^^^ rotr x 11 ^^^ rotr x 25

/-- The choice function. -/
def ch (x y z : Nat) : Nat := (x &&& y) ^^^ ((x ^^^ (2 ^ 32 - 1)) &&& z)

/-- The majority function. -/
def maj (x y z : Nat) : Nat := (x &&& y) ^^^ (x &&& z) ^^^ (y &&& z)

/-- Padding: the bit 1, zeros up to 56 mod 64 bytes, and the bit length in eight bytes. -/
def pad (msg : Bytes) : Bytes :=
  msg ++ [byte 0x80] ++ List.replicate ((119 - msg.length % 64) % 64) (byte 0) ++
    toBytesBE 8 (8 * msg.length)

/-- The 32-bit big-endian words of a byte string whose length is a multiple of four. -/
def words : Bytes → List Nat
  | b0 :: b1 :: b2 :: b3 :: rest => fromBytesBE [b0, b1, b2, b3] :: words rest
  | _ => []

/-- Message schedule: extends the block words, held newest first, by `n` words. -/
def schedule : Nat → List Nat → List Nat
  | 0, ws => ws
  | n + 1, ws =>
      schedule n
        (w32 (ssig1 (ws.getD 1 0) + ws.getD 6 0 + ssig0 (ws.getD 14 0) + ws.getD 15 0) :: ws)

/-- One round, on a round constant and a schedule word. -/
def round (s : State) (kw : Nat × Nat) : State :=
  let t1 := s.h + bsig1 s.e + ch s.e s.f s.g + kw.1 + kw.2
  let t2 := bsig0 s.a + maj s.a s.b s.c
  ⟨w32 (t1 + t2), s.a, s.b, s.c, w32 (s.d + t1), s.e, s.f, s.g⟩

/-- The compression function, on one block of sixteen words. -/
def compressBlock (s : State) (block : List Nat) : State :=
  let ws := (schedule 48 block.reverse).reverse
  let t := (K.zip ws).foldl round s
  ⟨w32 (s.a + t.a), w32 (s.b + t.b), w32 (s.c + t.c), w32 (s.d + t.d),
   w32 (s.e + t.e), w32 (s.f + t.f), w32 (s.g + t.g), w32 (s.h + t.h)⟩

/-- Compression of `n` successive blocks. -/
def blocks : Nat → State → List Nat → State
  | 0, s, _ => s
  | n + 1, s, ws => blocks n (compressBlock s (ws.take 16)) (ws.drop 16)

/-- Modelled from the spec: the "cryptographic hash" of section 4.6, taken to be SHA-256 of the
byte string. -/
def sum (msg : Bytes) : Bytes :=
  let ws := words (pad msg)
  let s := blocks (ws.length / 16) init ws
  toBytesBE 4 s.a ++ toBytesBE 4 s.b ++ toBytesBE 4 s.c ++ toBytesBE 4 s.d ++
    toBytesBE 4 s.e ++ toBytesBE 4 s.f ++ toBytesBE 4 s.g ++ toBytesBE 4 s.h

end SHA256

/-! ### Keys, signatures, addresses -/

/-- Modelled from the spec: the pairing setting of the signature scheme (sections 4.2, 4.3 and
4.5), whose implementation is not among the sources: the subgroup order `r`, the groups G1 and
G2, the target group with its equality test, the pairing `e : G1 × G2 → GT`, and `HashToG2`
(whose domain-separation tag the spec leaves open). -/
structure Suite where
  r : Nat
  G1 : CurveGroup
  G2 : CurveGroup
  GT : Type
  eqGT : DecidableEq GT
  pairing : G1.Point → G2.Point → GT
  hashToG2 : Bytes → G2.Point

/-- Modelled from the spec: what the spec states of the suite, as far as signing and verifying
use it.  The pairing is bilinear (section 4.3).  The public key `k · G1Generator` of a valid
private key (section 3) and its signature `k · HashToG2(msg)` (section 4.5) have an
x-coordinate that leaves the sign bit free, are recovered by the curve equation from their
x-coordinate and sign, and lie in the prime-order subgroup. -/
structure Suite.Lawful (S : Suite) : Prop where
  bilinear : ∀ k P Q, S.pairing (S.G1.smul k P) Q = S.pairing P (S.G2.smul k Q)
  pub_xCoord_lt : ∀ k, 1 ≤ k → k < S.r →
    S.G1.xCoord (S.G1.smul k S.G1.generator) < 2 ^ (8 * PubKeySize - 1)
  sig_xCoord_lt : ∀ k msg, 1 ≤ k → k < S.r →
    S.G2.xCoord (S.G2.smul k (S.hashToG2 msg)) < 2 ^ (8 * SignatureSize - 1)
  pub_liftX : ∀ k, 1 ≤ k → k < S.r →
    S.G1.liftX (S.G1.xCoord (S.G1.smul k S.G1.generator))
      (S.G1.signBit (S.G1.smul k S.G1.generator)) = some (S.G1.smul k S.G1.generator)
  pub_inSubgroup : ∀ k, 1 ≤ k → k < S.r →
    S.G1.inSubgroup (S.G1.smul k S.G1.generator) = true
  sig_liftX : ∀ k msg, 1 ≤ k → k < S.r →
    S.G2.liftX (S.G2.xCoord (S.G2.smul k (S.hashToG2 msg)))
      (S.G2.signBit (S.G2.smul k (S.hashToG2 msg))) = some (S.G2.smul k (S.hashToG2 msg))
  sig_inSubgroup : ∀ k msg, 1 ≤ k → k < S.r →
    S.G2.inSubgroup (S.G2.smul k (S.hashToG2 msg)) = true

/-- Modelled from the spec: errors of the key operations (an invalid private key in `Sign`, a
"malformed input length" in `Address`). -/
inductive KeyError where
  | invalidPrivateKey
  | invalidPubKeyLength
deriving DecidableEq, Repr

/-- Modelled from the spec: a valid private key (section 3) is "a 32-byte big-endian scalar in
[1, r-1]". -/
def validPrivKey (r : Nat) (privKey : Bytes) : Bool :=
  decide (privKey.length = PrivateKeySize) && decide (1 ≤ fromBytesBE privKey) &&
    decide (fromBytesBE privKey < r)

/-- Modelled from the spec: `PubKey(priv)` "computes `priv · G1Generator`" (section 4.4),
serialized in 48 bytes. -/
def PubKey (G1 : CurveGroup) (privKey : Bytes) : Bytes :=
  compress G1 PubKeySize (G1.smul (fromBytesBE privKey) G1.generator)

/-- Modelled from the spec: `Sign(priv, msg)` "computes `priv · HashToG2(msg)`" (section 4.5),
serialized in 96 bytes.  The spec gives `Sign` the result type `Signature | Error` without
naming the error; here `Sign` fails on a byte string that is not a valid private key. -/
def Sign (S : Suite) (privKey msg : Bytes) : Except KeyError Bytes :=
  if validPrivKey S.r privKey then
    .ok (compress S.G2 SignatureSize (S.G2.smul (fromBytesBE privKey) (S.hashToG2 msg)))
  else .error .invalidPrivateKey

/-- Modelled from the spec: `VerifySignature(pub, msg, sig)` "deserializes `sig` and `pub`
(failing closed - malformed input yields `false`, never a crash), then checks
`e(sig, G1Generator) == e(HashToG2(msg), pub)`" (section 4.5).  The pairing takes its G1
argument first, as in section 4.3. -/
def VerifySignature (S : Suite) (pubKey msg sig : Bytes) : Bool :=
  match decompress S.G2 SignatureSize sig, decompress S.G1 PubKeySize pubKey with
  | .ok s, .ok pk =>
      @decide (S.pairing S.G1.generator s = S.pairing pk (S.hashToG2 msg)) (S.eqGT _ _)
  | _, _ => false

/-- Modelled from the spec: `Address(pub)` is "a fixed-length (20-byte) cryptographic hash of
the compressed public-key bytes, truncated"; "the only failure mode is a malformed input
length" (section 4.6).  The spec leaves the hash open and binds it to the known vector of
section 8; the hash taken here is SHA-256 cut to its first 20 bytes, the address hash of
Tendermint. -/
def Address (pubKey : Bytes) : Except KeyError Bytes :=
  if pubKey.length ≠ PubKeySize then .error .invalidPubKeyLength
  else .ok ((SHA256.sum pubKey).take AddressSize)

/-- The private key of `TestBLSAddress`, in base64. -/
def knownPrivKeyBase64 : String := "RokcLOxJWTyBkh5HPbdIACng/B65M8a5PYH1Nw6xn70="

/-- The public key expected by `TestBLSAddress`, in base64. -/
def knownPubKeyBase64 : String :=
  "F5BjXeh0DppqaxX7a3LzoWr6CXPZcZeba6VHYdbiUCxQ23b00mFD8FRZpCz9Ug1E"

/-- The address expected by `TestBLSAddress`, in hexadecimal. -/
def knownAddressHex : String := "DDAD59BB10A10088C5A9CA219C3CF5BB4599B54E"

/-! ### A small suite, used to run the scheme -/

namespace Toy

/-- The additive group of residues modulo 11 dressed as a curve group: the points `P` and
`11 - P` share the x-coordinate `min P (11 - P)` and differ in sign; 0 is the identity. -/
@[reducible] def group : CurveGroup where
  Point := Nat
  generator := 1
  smul := fun k P => k * P % 11
  xCoord := fun P => if 5 < P % 11 then 11 - P % 11 else P % 11
  signBit := fun P => decide (5 < P % 11)
  liftX := fun x s => if 1 ≤ x ∧ x ≤ 5 then some (if s then 11 - x else x) else none
  inSubgroup := fun P => decide (P < 11)

/-- A suite over `group`, with the pairing `e (P, Q) = P * Q mod 11`. -/
@[reducible] def suite : Suite where
  r := 11
  G1 := group
  G2 := group
  GT := Nat
  eqGT := inferInstance
  pairing := fun (P Q : Nat) => P * Q % 11
  hashToG2 := fun msg => (1 + fromBytesBE msg % 10 : Nat)

/-- The private key 3, in 32 bytes. -/
def privKey : Bytes := toBytesBE 32 3

end Toy

end BLS12381

namespace Commands

/-! ### Theorems on `init.go` -/

section Theorems

variable {W ε PK QH PV CP T QT : Type}

theorem initializeNodeKey_of_exists (sys : Collaborators W ε PK QH PV CP T QT) (config : Config)
    (w : W) (h : sys.fileExists config.NodeKeyFile w = true) :
    initializeNodeKey sys config w =
      { world := w
        trace := [.fileExists config.NodeKeyFile,
                  .logInfo "Found node key" [("path", .str config.NodeKeyFile)]]
        err := none } := by
  simp [initializeNodeKey, h]

theorem initializeNodeKey_trace_no_saveAs (sys : Collaborators W ε PK QH PV CP T QT)
    (config : Config) (w : W) (doc : GenesisDoc PK QH CP T QT) (path : String) :
    Event.saveAs doc path ∉ (initializeNodeKey sys config w).trace := by
  simp only [initializeNodeKey]
  split
  · simp
  · split <;> simp

theorem privValidatorStep_trace_no_saveAs (sys : Collaborators W ε PK QH PV CP T QT)
    (config : Config) (w : W) (doc : GenesisDoc PK QH CP T QT) (path : String) :
    Event.saveAs doc path ∉ (privValidatorStep sys config w).2.2 := by
  simp only [privValidatorStep]
  split <;> simp

theorem saveGenesisDoc_err (sys : Collaborators W ε PK QH PV CP T QT)
    (pre : List (Event PK QH CP T QT)) (d : GenesisDoc PK QH CP T QT) (f : String) (w : W) :
    (saveGenesisDoc sys pre d f w).err = (sys.saveAs d f w).2.map GoError.ext := by
  simp only [saveGenesisDoc]
  split <;> simp_all

theorem saveGenesisDoc_world (sys : Collaborators W ε PK QH PV CP T QT)
    (pre : List (Event PK QH CP T QT)) (d : GenesisDoc PK QH CP T QT) (f : String) (w : W) :
    (saveGenesisDoc sys pre d f w).world = (sys.saveAs d f w).1 := by
  simp only [saveGenesisDoc]
  split <;> simp_all

theorem saveGenesisDoc_saveAs_mem (sys : Collaborators W ε PK QH PV CP T QT)
    (pre : List (Event PK QH CP T QT)) (d : GenesisDoc PK QH CP T QT) (f : String) (w : W)
    (doc : GenesisDoc PK QH CP T QT) (path : String) :
    Event.saveAs doc path ∈ (saveGenesisDoc sys pre d f w).trace ↔
      Event.saveAs doc path ∈ pre ∨ (doc = d ∧ path = f) := by
  simp only [saveGenesisDoc]
  split <;> simp

theorem saveGenesisDoc_loadOrGenNodeKey_mem (sys : Collaborators W ε PK QH PV CP T QT)
    (pre : List (Event PK QH CP T QT)) (d : GenesisDoc PK QH CP T QT) (f : String) (w : W)
    (p : String) :
    Event.loadOrGenNodeKey p ∈ (saveGenesisDoc sys pre d f w).trace ↔
      Event.loadOrGenNodeKey p ∈ pre := by
  simp only [saveGenesisDoc]
  split <;> simp

/-- Claim C7. In `initFilesWithConfig`, once the node-key step has succeeded and the genesis file
is found absent, the returned error is the size error "nodeProTxHash is incorrect size wanted 32
bytes, got N bytes" exactly when the `proTxHash` flag is non-empty and its length `N` differs
from `crypto.ProTxHashSize`; no other `fmt.Errorf` error is returned on this path; and when the
size error is returned `GenesisDoc.SaveAs` is not called. -/
theorem initFilesWithConfig_proTxHash_size_error (sys : Collaborators W ε PK QH PV CP T QT)
    (flags : Flags) (config : Config) (w : W)
    (hnk : (initializeNodeKey sys config w).err = none)
    (hgen : sys.fileExists config.GenesisFile (initializeNodeKey sys config w).world = false) :
    ((initFilesWithConfig sys flags config w).err
        = some (.errorf (proTxHashSizeMessage flags.proTxHash.length))
      ↔ (flags.proTxHash.length ≠ 0 ∧ flags.proTxHash.length ≠ sys.ProTxHashSize)) ∧
    (∀ msg, (initFilesWithConfig sys flags config w).err = some (.errorf msg) →
      flags.proTxHash.length ≠ 0 ∧ flags.proTxHash.length ≠ sys.ProTxHashSize) ∧
    ((flags.proTxHash.length ≠ 0 ∧ flags.proTxHash.length ≠ sys.ProTxHashSize) →
      ∀ doc path, Event.saveAs doc path ∉ (initFilesWithConfig sys flags config w).trace) := by
  have hns := initializeNodeKey_trace_no_saveAs sys config w
  have hext : ∀ (o : Option ε) (msg : String), o.map GoError.ext ≠ some (GoError.errorf msg) := by
    intro o msg
    cases o <;> simp
  unfold initFilesWithConfig
  simp only [hnk, hgen]
  by_cases h0 : flags.proTxHash.length ≠ 0
  · by_cases h1 : flags.proTxHash.length ≠ sys.ProTxHashSize
    · simp [h0, h1, hns]
    · simp [h0, h1, saveGenesisDoc_err, hext]
  · simp [h0, saveGenesisDoc_err, hext]

/-- Witness of C7: in an empty directory, a three-byte `--proTxHash` gives the size error
and no call of `SaveAs`. -/
theorem initFilesWithConfig_proTxHash_size_error_witness :
    (initializeNodeKey simSys simConfig simEmpty).err = none ∧
    simSys.fileExists simConfig.GenesisFile (initializeNodeKey simSys simConfig simEmpty).world
      = false ∧
    (initFilesWithConfig simSys ⟨0, 0, [1, 2, 3]⟩ simConfig simEmpty).err
      = some (.errorf "nodeProTxHash is incorrect size wanted 32 bytes, got 3 bytes") ∧
    ∀ doc path, Event.saveAs doc path ∉
      (initFilesWithConfig simSys ⟨0, 0, [1, 2, 3]⟩ simConfig simEmpty).trace :=
  ⟨by decide, by decide,
   (initFilesWithConfig_proTxHash_size_error simSys ⟨0, 0, [1, 2, 3]⟩ simConfig simEmpty
      (by decide) (by decide)).1.mpr ⟨by decide, by decide⟩,
   (initFilesWithConfig_proTxHash_size_error simSys ⟨0, 0, [1, 2, 3]⟩ simConfig simEmpty
      (by decide) (by decide)).2.2 ⟨by decide, by decide⟩⟩

theorem initializeNodeKey_err_not_wrapf (sys : Collaborators W ε PK QH PV CP T QT)
    (config : Config) (w : W) :
    (initializeNodeKey sys config w).err = none ∨
      ∃ e, (initializeNodeKey sys config w).err = some (.ext e) := by
  simp only [initializeNodeKey]
  split
  · simp
  · split <;> simp

/-- Claim C9. Every genesis document that `initFilesSingleNodeWithConfig` hands to `SaveAs` is
saved at the genesis path and has exactly one validator; that validator's `PubKey` is the
document's `ThresholdPublicKey`, the private validator's public key for its first quorum hash;
its `ProTxHash` is the document's `NodeProTxHash`, the private validator's proTxHash (whatever
the flags hold); its `Power` is `types.DefaultDashVotingPower`; and `QuorumHash` is the private
validator's first quorum hash.  When the genesis block is reached (node key done, genesis file
absent) and `GetFirstQuorumHash`, `GetPubKey` or `GetProTxHash` fails, the command returns that
error wrapped, and `SaveAs` is not called. -/
theorem initFilesSingleNode_genesis_doc (sys : Collaborators W ε PK QH PV CP T QT)
    (flags : Flags) (config : Config) (w : W) :
    (∀ doc path,
      Event.saveAs doc path ∈ (initFilesSingleNodeWithConfig sys flags config w).trace →
      ∃ qh pk ptx,
        sys.getFirstQuorumHash (privValidatorStep sys config w).2.1 = .ok qh ∧
        sys.getPubKey (privValidatorStep sys config w).2.1 qh = .ok pk ∧
        sys.getProTxHash (privValidatorStep sys config w).2.1 = .ok ptx ∧
        path = config.GenesisFile ∧
        doc.Validators
          = [{ PubKey := pk, ProTxHash := ptx, Power := sys.DefaultDashVotingPower }] ∧
        doc.ThresholdPublicKey = some pk ∧
        doc.NodeProTxHash = some ptx ∧
        doc.QuorumHash = some qh) ∧
    ((initializeNodeKey sys config (privValidatorStep sys config w).1).err = none →
      sys.fileExists config.GenesisFile
        (initializeNodeKey sys config (privValidatorStep sys config w).1).world = false →
      (∀ e, sys.getFirstQuorumHash (privValidatorStep sys config w).2.1 = .error e →
        (initFilesSingleNodeWithConfig sys flags config w).err
          = some (.wrapf "there is no quorum hash" e) ∧
        ∀ doc path,
          Event.saveAs doc path ∉ (initFilesSingleNodeWithConfig sys flags config w).trace) ∧
      (∀ qh e, sys.getFirstQuorumHash (privValidatorStep sys config w).2.1 = .ok qh →
        sys.getPubKey (privValidatorStep sys config w).2.1 qh = .error e →
        (initFilesSingleNodeWithConfig sys flags config w).err
          = some (.wrapf "can't get pubkey in init files with config" e) ∧
        ∀ doc path,
          Event.saveAs doc path ∉ (initFilesSingleNodeWithConfig sys flags config w).trace) ∧
      (∀ qh pk e, sys.getFirstQuorumHash (privValidatorStep sys config w).2.1 = .ok qh →
        sys.getPubKey (privValidatorStep sys config w).2.1 qh = .ok pk →
        sys.getProTxHash (privValidatorStep sys config w).2.1 = .error e →
        (initFilesSingleNodeWithConfig sys flags config w).err
          = some (.wrapf "can't get proTxHash" e) ∧
        ∀ doc path,
          Event.saveAs doc path ∉ (initFilesSingleNodeWithConfig sys flags config w).trace)) := by
  have hnk := initializeNodeKey_trace_no_saveAs sys config (privValidatorStep sys config w).1
  have hpv := privValidatorStep_trace_no_saveAs sys config w
  refine ⟨?_, ?_⟩
  · intro doc path hmem
    simp only [initFilesSingleNodeWithConfig] at hmem
    split at hmem
    · simp [hnk, hpv] at hmem
    · split at hmem
      · simp [hnk, hpv] at hmem
      · split at hmem
        · simp [hnk, hpv] at hmem
        · split at hmem
          · simp [hnk, hpv] at hmem
          · split at hmem
            · simp [hnk, hpv] at hmem
            · rename_i qh hq _ pk hk _ ptx hptx
              rw [saveGenesisDoc_saveAs_mem] at hmem
              simp [hnk, hpv] at hmem
              refine ⟨qh, pk, ptx, hq, hk, hptx, hmem.2, ?_⟩
              simp [hmem.1]
  · intro herr hgen
    refine ⟨?_, ?_, ?_⟩
    · intro e he
      simp [initFilesSingleNodeWithConfig, herr, hgen, he, hnk, hpv]
    · intro qh e hq he
      simp [initFilesSingleNodeWithConfig, herr, hgen, hq, he, hnk, hpv]
    · intro qh pk e hq hk he
      simp [initFilesSingleNodeWithConfig, herr, hgen, hq, hk, he, hnk, hpv]

/-- Witness of C9: in an empty directory `init-single` saves `simGenesisDoc`, which has the
single validator of the private validator; with a private validator that lacks a quorum hash,
a public key or a proTxHash, the command fails and saves nothing. -/
theorem initFilesSingleNode_genesis_doc_witness :
    (Event.saveAs simGenesisDoc "config/genesis.json" ∈
        (initFilesSingleNodeWithConfig simSys ⟨5, 7, [1, 2, 3]⟩ simConfig simEmpty).trace ∧
      ∃ qh pk ptx,
        simSys.getFirstQuorumHash (privValidatorStep simSys simConfig simEmpty).2.1 = .ok qh ∧
        simSys.getPubKey (privValidatorStep simSys simConfig simEmpty).2.1 qh = .ok pk ∧
        simSys.getProTxHash (privValidatorStep simSys simConfig simEmpty).2.1 = .ok ptx ∧
        "config/genesis.json" = simConfig.GenesisFile ∧
        simGenesisDoc.Validators
          = [{ PubKey := pk, ProTxHash := ptx, Power := simSys.DefaultDashVotingPower }] ∧
        simGenesisDoc.ThresholdPublicKey = some pk ∧
        simGenesisDoc.NodeProTxHash = some ptx ∧
        simGenesisDoc.QuorumHash = some qh) ∧
    ((initFilesSingleNodeWithConfig simSys ⟨5, 7, [1, 2, 3]⟩ simConfig (simWithKey 0)).err
        = some (.wrapf "there is no quorum hash" "no quorum hash") ∧
      ∀ doc path, Event.saveAs doc path ∉
        (initFilesSingleNodeWithConfig simSys ⟨5, 7, [1, 2, 3]⟩ simConfig (simWithKey 0)).trace) ∧
    ((initFilesSingleNodeWithConfig simSys ⟨5, 7, [1, 2, 3]⟩ simConfig (simWithKey 1)).err
        = some (.wrapf "can't get pubkey in init files with config" "no public key") ∧
      ∀ doc path, Event.saveAs doc path ∉
        (initFilesSingleNodeWithConfig simSys ⟨5, 7, [1, 2, 3]⟩ simConfig (simWithKey 1)).trace) ∧
    ((initFilesSingleNodeWithConfig simSys ⟨5, 7, [1, 2, 3]⟩ simConfig (simWithKey 2)).err
        = some (.wrapf "can't get proTxHash" "no proTxHash") ∧
      ∀ doc path, Event.saveAs doc path ∉
        (initFilesSingleNodeWithConfig simSys ⟨5, 7, [1, 2, 3]⟩ simConfig (simWithKey 2)).trace) :=
  ⟨⟨by decide,
    (initFilesSingleNode_genesis_doc simSys ⟨5, 7, [1, 2, 3]⟩ simConfig simEmpty).1
      simGenesisDoc "config/genesis.json" (by decide)⟩,
   ((initFilesSingleNode_genesis_doc simSys ⟨5, 7, [1, 2, 3]⟩ simConfig (simWithKey 0)).2
      (by decide) (by decide)).1 "no quorum hash" rfl,
   ((initFilesSingleNode_genesis_doc simSys ⟨5, 7, [1, 2, 3]⟩ simConfig (simWithKey 1)).2
      (by decide) (by decide)).2.1 2 "no public key" rfl rfl,
   ((initFilesSingleNode_genesis_doc simSys ⟨5, 7, [1, 2, 3]⟩ simConfig (simWithKey 2)).2
      (by decide) (by decide)).2.2 3 5 "no proTxHash" rfl rfl rfl⟩

theorem initializeNodeKey_post (sys : Collaborators W ε PK QH PV CP T QT)
    (hk : sys.KeepsFiles) (config : Config) (w : W) :
    ((initializeNodeKey sys config w).err = none →
      sys.fileExists config.NodeKeyFile (initializeNodeKey sys config w).world = true) ∧
    ∀ q, sys.fileExists q w = true →
      sys.fileExists q (initializeNodeKey sys config w).world = true := by
  have hc := hk.nodeKey_creates config.NodeKeyFile w
  have hp := fun q => hk.nodeKey_keeps config.NodeKeyFile q w
  simp only [initializeNodeKey]
  split
  · simp_all
  · split <;> simp_all

theorem initFilesWithConfig_of_exists (sys : Collaborators W ε PK QH PV CP T QT)
    (flags : Flags) (config : Config) (w : W)
    (hn : sys.fileExists config.NodeKeyFile w = true)
    (hg : sys.fileExists config.GenesisFile w = true) :
    initFilesWithConfig sys flags config w =
      { world := w
        trace := [.fileExists config.NodeKeyFile,
                  .logInfo "Found node key" [("path", .str config.NodeKeyFile)],
                  .fileExists config.GenesisFile,
                  .logInfo "Found genesis file" [("path", .str config.GenesisFile)]]
        err := none } := by
  simp [initFilesWithConfig, initializeNodeKey_of_exists sys config w hn, hg]

theorem initFilesSingleNode_of_exists (sys : Collaborators W ε PK QH PV CP T QT)
    (flags : Flags) (config : Config) (w : W)
    (hp : sys.fileExists config.PrivValidatorKeyFile w = true)
    (hn : sys.fileExists config.NodeKeyFile w = true)
    (hg : sys.fileExists config.GenesisFile w = true) :
    initFilesSingleNodeWithConfig sys flags config w =
      { world := w
        trace := [.fileExists config.PrivValidatorKeyFile,
                  .loadFilePV config.PrivValidatorKeyFile config.PrivValidatorStateFile,
                  .logInfo "Found private validator"
                    [("keyFile", .str config.PrivValidatorKeyFile),
                     ("stateFile", .str config.PrivValidatorStateFile)],
                  .fileExists config.NodeKeyFile,
                  .logInfo "Found node key" [("path", .str config.NodeKeyFile)],
                  .fileExists config.GenesisFile,
                  .logInfo "Found genesis file" [("path", .str config.GenesisFile)]]
        err := none } := by
  have hpv : privValidatorStep sys config w =
      (w, sys.loadFilePV config.PrivValidatorKeyFile config.PrivValidatorStateFile w,
        [.fileExists config.PrivValidatorKeyFile,
         .loadFilePV config.PrivValidatorKeyFile config.PrivValidatorStateFile,
         .logInfo "Found private validator"
           [("keyFile", .str config.PrivValidatorKeyFile),
            ("stateFile", .str config.PrivValidatorStateFile)]]) := by
    simp [privValidatorStep, hp]
  simp [initFilesSingleNodeWithConfig, hpv, initializeNodeKey_of_exists sys config w hn, hg]

theorem initFilesWithConfig_post (sys : Collaborators W ε PK QH PV CP T QT)
    (hk : sys.KeepsFiles) (flags : Flags) (config : Config) (w : W)
    (hok : (initFilesWithConfig sys flags config w).err = none) :
    sys.fileExists config.NodeKeyFile (initFilesWithConfig sys flags config w).world = true ∧
    sys.fileExists config.GenesisFile (initFilesWithConfig sys flags config w).world = true := by
  have hnk := initializeNodeKey_post sys hk config w
  revert hok
  simp only [initFilesWithConfig]
  split
  · simp
  · rename_i hnone
    have hn := hnk.1 hnone
    split
    · intro _
      exact ⟨hn, by assumption⟩
    · have hr := hk.randStr_keeps 6 config.NodeKeyFile _ hn
      split
      · split
        · simp
        · intro hok
          rw [saveGenesisDoc_err] at hok
          rw [saveGenesisDoc_world]
          exact ⟨hk.saveAs_keeps _ _ _ _ hr, hk.saveAs_creates _ _ _ (by simpa using hok)⟩
      · intro hok
        rw [saveGenesisDoc_err] at hok
        rw [saveGenesisDoc_world]
        exact ⟨hk.saveAs_keeps _ _ _ _ hr, hk.saveAs_creates _ _ _ (by simpa using hok)⟩

theorem privValidatorStep_post (sys : Collaborators W ε PK QH PV CP T QT)
    (hk : sys.KeepsFiles) (config : Config) (w : W) :
    sys.fileExists config.PrivValidatorKeyFile (privValidatorStep sys config w).1 = true := by
  have hc := hk.pvSave_creates config.PrivValidatorKeyFile config.PrivValidatorStateFile w
  simp only [privValidatorStep]
  split <;> simp_all

theorem initFilesSingleNode_post (sys : Collaborators W ε PK QH PV CP T QT)
    (hk : sys.KeepsFiles) (flags : Flags) (config : Config) (w : W)
    (hok : (initFilesSingleNodeWithConfig sys flags config w).err = none) :
    sys.fileExists config.PrivValidatorKeyFile
      (initFilesSingleNodeWithConfig sys flags config w).world = true ∧
    sys.fileExists config.NodeKeyFile
      (initFilesSingleNodeWithConfig sys flags config w).world = true ∧
    sys.fileExists config.GenesisFile
      (initFilesSingleNodeWithConfig sys flags config w).world = true := by
  have hnk := initializeNodeKey_post sys hk config (privValidatorStep sys config w).1
  have hp := hnk.2 _ (privValidatorStep_post sys hk config w)
  revert hok
  simp only [initFilesSingleNodeWithConfig]
  split
  · simp
  · rename_i hnone
    have hn := hnk.1 hnone
    split
    · intro _
      exact ⟨hp, hn, by assumption⟩
    · split
      · simp
      · split
        · simp
        · split
          · simp
          · intro hok
            rw [saveGenesisDoc_err] at hok
            rw [saveGenesisDoc_world]
            exact ⟨hk.saveAs_keeps _ _ _ _ (hk.randStr_keeps 6 _ _ hp),
              hk.saveAs_keeps _ _ _ _ (hk.randStr_keeps 6 _ _ hn),
              hk.saveAs_creates _ _ _ (by simpa using hok)⟩

/-- Claim C8. Init does not overwrite.  `initializeNodeKey` with an existing node-key file
returns nil, leaves the world as it was and does not call `LoadOrGenNodeKey`.  In
`initFilesWithConfig` and `initFilesSingleNodeWithConfig`, a node-key file found to exist is
not passed to `LoadOrGenNodeKey` and a genesis file found to exist is not passed to `SaveAs`;
when every file the command checks exists at the start, the command returns nil, the world is
unchanged, and no call that may change the world is made.  When the collaborators keep files
(`KeepsFiles`), a run that follows a successful run returns nil, makes no such call, and leaves
the world that the first run produced. -/
theorem init_never_overwrites (sys : Collaborators W ε PK QH PV CP T QT)
    (flags flags2 : Flags) (config : Config) (w : W) :
    (sys.fileExists config.NodeKeyFile w = true →
      (initializeNodeKey sys config w).err = none ∧
      (initializeNodeKey sys config w).world = w ∧
      ∀ p, Event.loadOrGenNodeKey p ∉ (initializeNodeKey sys config w).trace) ∧
    (sys.fileExists config.NodeKeyFile w = true →
      ∀ p, Event.loadOrGenNodeKey p ∉ (initFilesWithConfig sys flags config w).trace) ∧
    (sys.fileExists config.GenesisFile (initializeNodeKey sys config w).world = true →
      ∀ d p, Event.saveAs d p ∉ (initFilesWithConfig sys flags config w).trace) ∧
    (sys.fileExists config.NodeKeyFile w = true → sys.fileExists config.GenesisFile w = true →
      (initFilesWithConfig sys flags config w).err = none ∧
      (initFilesWithConfig sys flags config w).world = w ∧
      ∀ e ∈ (initFilesWithConfig sys flags config w).trace, e.changesWorld = false) ∧
    (sys.fileExists config.NodeKeyFile (privValidatorStep sys config w).1 = true →
      ∀ p, Event.loadOrGenNodeKey p ∉ (initFilesSingleNodeWithConfig sys flags config w).trace) ∧
    (sys.fileExists config.GenesisFile
        (initializeNodeKey sys config (privValidatorStep sys config w).1).world = true →
      ∀ d p, Event.saveAs d p ∉ (initFilesSingleNodeWithConfig sys flags config w).trace) ∧
    (sys.fileExists config.PrivValidatorKeyFile w = true →
      sys.fileExists config.NodeKeyFile w = true → sys.fileExists config.GenesisFile w = true →
      (initFilesSingleNodeWithConfig sys flags config w).err = none ∧
      (initFilesSingleNodeWithConfig sys flags config w).world = w ∧
      ∀ e ∈ (initFilesSingleNodeWithConfig sys flags config w).trace,
        e.changesWorld = false) ∧
    (sys.KeepsFiles → (initFilesWithConfig sys flags config w).err = none →
      (initFilesWithConfig sys flags2 config (initFilesWithConfig sys flags config w).world).err
        = none ∧
      (initFilesWithConfig sys flags2 config (initFilesWithConfig sys flags config w).world).world
        = (initFilesWithConfig sys flags config w).world ∧
      ∀ e ∈ (initFilesWithConfig sys flags2 config
              (initFilesWithConfig sys flags config w).world).trace,
        e.changesWorld = false) ∧
    (sys.KeepsFiles → (initFilesSingleNodeWithConfig sys flags config w).err = none →
      (initFilesSingleNodeWithConfig sys flags2 config
          (initFilesSingleNodeWithConfig sys flags config w).world).err = none ∧
      (initFilesSingleNodeWithConfig sys flags2 config
          (initFilesSingleNodeWithConfig sys flags config w).world).world
        = (initFilesSingleNodeWithConfig sys flags config w).world ∧
      ∀ e ∈ (initFilesSingleNodeWithConfig sys flags2 config
              (initFilesSingleNodeWithConfig sys flags config w).world).trace,
        e.changesWorld = false) := by
  refine ⟨?_, ?_, ?_, ?_, ?_, ?_, ?_, ?_, ?_⟩
  · intro h
    simp [initializeNodeKey_of_exists sys config w h]
  · intro h p
    simp only [initFilesWithConfig, initializeNodeKey_of_exists sys config w h]
    repeat' split
    all_goals simp [saveGenesisDoc_loadOrGenNodeKey_mem]
  · intro h d p
    have hns := initializeNodeKey_trace_no_saveAs sys config w
    simp only [initFilesWithConfig]
    split
    · simp [hns]
    · simp [h, hns]
  · intro hn hg
    simp [initFilesWithConfig_of_exists sys flags config w hn hg, Event.changesWorld]
  · intro h p
    have hpv : Event.loadOrGenNodeKey p ∉ (privValidatorStep sys config w).2.2 := by
      simp only [privValidatorStep]
      split <;> simp
    simp only [initFilesSingleNodeWithConfig, initializeNodeKey_of_exists sys config _ h]
    repeat' split
    all_goals simp [hpv, saveGenesisDoc_loadOrGenNodeKey_mem]
  · intro h d p
    have hns := initializeNodeKey_trace_no_saveAs sys config (privValidatorStep sys config w).1
    have hpv := privValidatorStep_trace_no_saveAs sys config w
    simp only [initFilesSingleNodeWithConfig]
    split
    · simp [hns, hpv]
    · simp [h, hns, hpv]
  · intro hp hn hg
    simp [initFilesSingleNode_of_exists sys flags config w hp hn hg, Event.changesWorld]
  · intro hk hok
    have hpost := initFilesWithConfig_post sys hk flags config w hok
    simp [initFilesWithConfig_of_exists sys flags2 config _ hpost.1 hpost.2,
      Event.changesWorld]
  · intro hk hok
    have hpost := initFilesSingleNode_post sys hk flags config w hok
    simp [initFilesSingleNode_of_exists sys flags2 config _ hpost.1 hpost.2.1 hpost.2.2,
      Event.changesWorld]

theorem simSys_keepsFiles : simSys.KeepsFiles where
  nodeKey_creates := by
    intro p w
    simp only [simSys]
    split <;> simp
  nodeKey_keeps := by
    intro p q w
    simp only [simSys]
    split <;> simp_all
  saveAs_creates := by
    intro d p w
    simp only [simSys]
    split <;> simp
  saveAs_keeps := by
    intro d p q w
    simp only [simSys]
    split <;> simp_all
  pvSave_creates := by
    intro k s w
    simp [simSys]
  randStr_keeps := by
    intro n q w
    simp [simSys]

/-- Witness of C8: in a directory that holds all three files both commands change nothing, and
after a first run in an empty directory a second run leaves the world of the first. -/
theorem init_never_overwrites_witness :
    (initializeNodeKey simSys simConfig simFull).world = simFull ∧
    (∀ p, Event.loadOrGenNodeKey p ∉
      (initFilesWithConfig simSys ⟨1, 2, []⟩ simConfig simFull).trace) ∧
    (∀ d p, Event.saveAs d p ∉
      (initFilesWithConfig simSys ⟨1, 2, []⟩ simConfig simFull).trace) ∧
    (initFilesWithConfig simSys ⟨1, 2, []⟩ simConfig simFull).world = simFull ∧
    (∀ p, Event.loadOrGenNodeKey p ∉
      (initFilesSingleNodeWithConfig simSys ⟨1, 2, []⟩ simConfig simFull).trace) ∧
    (∀ d p, Event.saveAs d p ∉
      (initFilesSingleNodeWithConfig simSys ⟨1, 2, []⟩ simConfig simFull).trace) ∧
    (initFilesSingleNodeWithConfig simSys ⟨1, 2, []⟩ simConfig simFull).world = simFull ∧
    (initFilesWithConfig simSys ⟨3, 4, [5]⟩ simConfig
        (initFilesWithConfig simSys ⟨1, 2, []⟩ simConfig simEmpty).world).world
      = (initFilesWithConfig simSys ⟨1, 2, []⟩ simConfig simEmpty).world ∧
    (initFilesSingleNodeWithConfig simSys ⟨3, 4, [5]⟩ simConfig
        (initFilesSingleNodeWithConfig simSys ⟨1, 2, []⟩ simConfig simEmpty).world).world
      = (initFilesSingleNodeWithConfig simSys ⟨1, 2, []⟩ simConfig simEmpty).world :=
  have full := init_never_overwrites simSys ⟨1, 2, []⟩ ⟨3, 4, [5]⟩ simConfig simFull
  have empty := init_never_overwrites simSys ⟨1, 2, []⟩ ⟨3, 4, [5]⟩ simConfig simEmpty
  ⟨(full.1 (by decide)).2.1,
   full.2.1 (by decide),
   full.2.2.1 (by decide),
   (full.2.2.2.1 (by decide) (by decide)).2.1,
   full.2.2.2.2.1 (by decide),
   full.2.2.2.2.2.1 (by decide),
   (full.2.2.2.2.2.2.1 (by decide) (by decide) (by decide)).2.1,
   (empty.2.2.2.2.2.2.2.1 simSys_keepsFiles (by decide)).2.1,
   (empty.2.2.2.2.2.2.2.2 simSys_keepsFiles (by decide)).2.1⟩

end Theorems

end Commands

namespace BLS12381

/-! ### Theorems on the key type -/

theorem G1.generator_on_curve : G1.gy * G1.gy % G1.p = (G1.gx * G1.gx % G1.p * G1.gx + 4) % G1.p := by
  decide!

theorem G1.p_mod_four : G1.p % 4 = 3 := by
  decide!

theorem length_toBytesBE (len n : Nat) : (toBytesBE len n).length = len := by
  induction len generalizing n with
  | zero => rfl
  | succ len ih => simp [toBytesBE, ih]

theorem fromBytesBE_append_singleton (bs : Bytes) (b : Fin 256) :
    fromBytesBE (bs ++ [b]) = fromBytesBE bs * 256 + b.val := by
  simp [fromBytesBE, List.foldl_append]

theorem fromBytesBE_toBytesBE (len n : Nat) :
    fromBytesBE (toBytesBE len n) = n % 256 ^ len := by
  induction len generalizing n with
  | zero => simp [toBytesBE, fromBytesBE, Nat.mod_one]
  | succ len ih =>
      rw [toBytesBE, fromBytesBE_append_singleton, ih]
      simp only [byte]
      rw [pow_succ, Nat.mul_comm (256 ^ len) 256, Nat.mod_mul]
      omega

theorem pow_top_bit (len : Nat) (hlen : 1 ≤ len) :
    2 * 2 ^ (8 * len - 1) = 256 ^ len := by
  have h : (256 : Nat) = 2 ^ 8 := by norm_num
  rw [h, ← pow_mul, ← pow_succ']
  congr 1
  omega

theorem fromBytesBE_compress (G : CurveGroup) (len : Nat) (hlen : 1 ≤ len) (P : G.Point)
    (hx : G.xCoord P < 2 ^ (8 * len - 1)) :
    fromBytesBE (compress G len P)
      = (if G.signBit P then 2 ^ (8 * len - 1) else 0) + G.xCoord P := by
  rw [compress, fromBytesBE_toBytesBE]
  apply Nat.mod_eq_of_lt
  have h2 := pow_top_bit len hlen
  split <;> omega

/-- Deserialization undoes serialization on a point that the curve equation recovers from its
x-coordinate and sign and that lies in the subgroup. -/
theorem decompress_compress (G : CurveGroup) (len : Nat) (hlen : 1 ≤ len) (P : G.Point)
    (hx : G.xCoord P < 2 ^ (8 * len - 1))
    (hlift : G.liftX (G.xCoord P) (G.signBit P) = some P)
    (hsub : G.inSubgroup P = true) :
    decompress G len (compress G len P) = .ok P := by
  have hn := fromBytesBE_compress G len hlen P hx
  have hsign : signOfBytes len (compress G len P) = G.signBit P := by
    rw [signOfBytes, hn]
    cases hs : G.signBit P
    · simp
      omega
    · simp
  have hxb : xOfBytes len (compress G len P) = G.xCoord P := by
    rw [xOfBytes, hn]
    cases hs : G.signBit P
    · simpa using Nat.mod_eq_of_lt hx
    · simp [Nat.add_mod_left, Nat.mod_eq_of_lt hx]
  have hl : (compress G len P).length = len := length_toBytesBE _ _
  simp [decompress, hl, hsign, hxb, hlift, hsub]

theorem validPrivKey_iff (r : Nat) (privKey : Bytes) :
    validPrivKey r privKey = true ↔
      privKey.length = PrivateKeySize ∧ 1 ≤ fromBytesBE privKey ∧ fromBytesBE privKey < r := by
  simp [validPrivKey, and_assoc]

/-- Conditional round trip: in a suite that is `Lawful`, for every valid private key and every
message, `Sign` returns a signature and `VerifySignature` accepts it under the public key.
The hypotheses of `Lawful` are not established here for BLS12-381, whose G2, pairing and
hash-to-curve are not defined in this file; the statement is about suites in general. -/
theorem roundtrip_of_lawful (S : Suite) (hS : S.Lawful) (privKey msg : Bytes)
    (hp : validPrivKey S.r privKey = true) :
    ∃ sig, Sign S privKey msg = .ok sig ∧
      VerifySignature S (PubKey S.G1 privKey) msg sig = true := by
  obtain ⟨_, h1, hr⟩ := (validPrivKey_iff S.r privKey).mp hp
  refine ⟨compress S.G2 SignatureSize (S.G2.smul (fromBytesBE privKey) (S.hashToG2 msg)),
    by simp [Sign, hp], ?_⟩
  have hsig := decompress_compress S.G2 SignatureSize (by decide)
    (S.G2.smul (fromBytesBE privKey) (S.hashToG2 msg)) (hS.sig_xCoord_lt _ msg h1 hr)
    (hS.sig_liftX _ msg h1 hr) (hS.sig_inSubgroup _ msg h1 hr)
  have hpub := decompress_compress S.G1 PubKeySize (by decide)
    (S.G1.smul (fromBytesBE privKey) S.G1.generator) (hS.pub_xCoord_lt _ h1 hr)
    (hS.pub_liftX _ h1 hr) (hS.pub_inSubgroup _ h1 hr)
  have hb := hS.bilinear (fromBytesBE privKey) S.G1.generator (S.hashToG2 msg)
  simp only [VerifySignature, PubKey, hsig, hpub]
  simp [hb]

theorem Toy.suite_lawful : Toy.suite.Lawful where
  bilinear := by
    intro k (P : Nat) (Q : Nat)
    show (k * P % 11 * Q % 11 : Nat) = P * (k * Q % 11) % 11
    rw [Nat.mod_mul_mod, Nat.mul_mod_mod]
    congr 1
    ring
  pub_xCoord_lt := by
    intro k _ _
    generalize Toy.suite.G1.smul k Toy.suite.G1.generator = Q
    revert Q
    intro (P : Nat)
    show (if 5 < P % 11 then 11 - P % 11 else P % 11 : Nat) < 2 ^ (8 * PubKeySize - 1)
    have h : (11 : Nat) < 2 ^ (8 * PubKeySize - 1) :=
      lt_of_lt_of_le (by decide : (11 : Nat) < 2 ^ 4)
        (Nat.pow_le_pow_right (by decide) (by decide))
    split <;> omega
  sig_xCoord_lt := by
    intro k msg _ _
    generalize Toy.suite.G2.smul k (Toy.suite.hashToG2 msg) = Q
    revert Q
    intro (P : Nat)
    show (if 5 < P % 11 then 11 - P % 11 else P % 11 : Nat) < 2 ^ (8 * SignatureSize - 1)
    have h : (11 : Nat) < 2 ^ (8 * SignatureSize - 1) :=
      lt_of_lt_of_le (by decide : (11 : Nat) < 2 ^ 4)
        (Nat.pow_le_pow_right (by decide) (by decide))
    split <;> omega
  pub_liftX := by
    intro k h1 hr
    have hr : k < 11 := hr
    interval_cases k <;> rfl
  pub_inSubgroup := by
    intro k _ _
    show decide ((k * 1 % 11 : Nat) < 11) = true
    simp
    omega
  sig_liftX := by
    intro k msg h1 hr
    have hr : k < 11 := hr
    have hm : fromBytesBE msg % 10 < 10 := Nat.mod_lt _ (by decide)
    show Toy.group.liftX (Toy.group.xCoord ((k * (1 + fromBytesBE msg % 10) % 11 : Nat)))
      (Toy.group.signBit ((k * (1 + fromBytesBE msg % 10) % 11 : Nat)))
        = some ((k * (1 + fromBytesBE msg % 10) % 11 : Nat))
    generalize fromBytesBE msg % 10 = h at hm
    interval_cases k <;> interval_cases h <;> rfl
  sig_inSubgroup := by
    intro k msg _ _
    show decide ((k * (1 + fromBytesBE msg % 10) % 11 : Nat) < 11) = true
    simp
    omega

/-- The round trip in the small suite: the private key 3 signs the message `[7]` and the
signature verifies. -/
theorem Toy.roundtrip :
    validPrivKey Toy.suite.r Toy.privKey = true ∧
    ∃ sig, Sign Toy.suite Toy.privKey [7] = .ok sig ∧
      VerifySignature Toy.suite (PubKey Toy.suite.G1 Toy.privKey) [7] sig = true :=
  ⟨by decide, roundtrip_of_lawful Toy.suite Toy.suite_lawful Toy.privKey [7] (by decide)⟩

/-- In the small suite verification is not constantly true: the signature of `[7]` does not
verify for the message `[8]`, nor under the public key of the private key 4. -/
theorem Toy.verify_rejects_other :
    VerifySignature Toy.suite (PubKey Toy.group Toy.privKey) [8] (toBytesBE 96 2) = false ∧
    VerifySignature Toy.suite (PubKey Toy.group (toBytesBE 32 4)) [7] (toBytesBE 96 2) = false ∧
    VerifySignature Toy.suite (PubKey Toy.group Toy.privKey) [7] (toBytesBE 96 2) = true := by
  decide!

/-- Deserialization on the group G1 of BLS12-381, run on three inputs: the empty string has
the wrong length; 48 zero bytes decode to the point (0, 2), which satisfies the curve equation
and is not annihilated by `r`; the x-coordinate 1 satisfies the curve equation with no y. -/
theorem G1.decompress_examples :
    decompress G1.group PubKeySize [] = .error .badLength ∧
    decompress G1.group PubKeySize (toBytesBE 48 0) = .error .notInSubgroup ∧
    decompress G1.group PubKeySize (toBytesBE 48 1) = .error .notOnCurve := by
  decide!

/-- Go's base64 decoder skips line feeds and carriage returns. -/
theorem base64Decode_skips_newlines :
    base64Decode "QUJD\n" = some [byte 0x41, byte 0x42, byte 0x43] ∧
    base64Decode "QU\r\nJD" = some [byte 0x41, byte 0x42, byte 0x43] ∧
    base64Decode "QUJ" = none := by
  decide!

/-- The SHA-256 test vectors of FIPS 180-4 for the empty string and for "abc". -/
theorem SHA256.sum_test_vectors :
    some (SHA256.sum [])
      = hexDecode "e3b0c44298fc1c149afbf4c8996fb92427ae41e4649b934ca495991b7852b855" ∧
    some (SHA256.sum [byte 0x61, byte 0x62, byte 0x63])
      = hexDecode "ba7816bf8f01cfea414140de5dae2223b00361a396177a9cb410ff61f20015ad" := by
  decide!

theorem SHA256.length_sum (msg : Bytes) : (SHA256.sum msg).length = 32 := by
  simp [SHA256.sum, length_toBytesBE]

theorem length_PubKey (G : CurveGroup) (privKey : Bytes) :
    (PubKey G privKey).length = PubKeySize :=
  length_toBytesBE _ _

theorem known_pubKey :
    (base64Decode knownPrivKeyBase64).map (PubKey G1.group) = base64Decode knownPubKeyBase64 := by
  decide!

theorem known_address :
    (base64Decode knownPubKeyBase64).map Address = (hexDecode knownAddressHex).map .ok := by
  decide!

theorem known_lengths :
    (base64Decode knownPrivKeyBase64).map List.length = some 32 ∧
    (base64Decode knownPrivKeyBase64).map (validPrivKey G1.r) = some true ∧
    (base64Decode knownPubKeyBase64).map List.length = some 48 ∧
    (hexDecode knownAddressHex).map List.length = some 20 := by
  decide!

/-- Claim C2. The private key of `TestBLSAddress` decodes to 32 bytes and is a valid key of
BLS12-381; its `PubKey` is the 48 bytes that `knownPubKeyBase64` decodes to; and the `Address`
of that public key is the 20 bytes that `knownAddressHex` decodes to. -/
theorem known_vector :
    (base64Decode knownPrivKeyBase64).map List.length = some 32 ∧
    (base64Decode knownPrivKeyBase64).map (validPrivKey G1.r) = some true ∧
    (base64Decode knownPubKeyBase64).map List.length = some 48 ∧
    (hexDecode knownAddressHex).map List.length = some 20 ∧
    (base64Decode knownPrivKeyBase64).map (PubKey G1.group) = base64Decode knownPubKeyBase64 ∧
    ((base64Decode knownPrivKeyBase64).map (PubKey G1.group)).map Address
      = (hexDecode knownAddressHex).map .ok := by
  refine ⟨known_lengths.1, known_lengths.2.1, known_lengths.2.2.1, known_lengths.2.2.2,
    known_pubKey, ?_⟩
  rw [known_pubKey]
  exact known_address

end BLS12381

end Tenderdash
